import Mathlib

/-!
Verification development for `faster-whisper-rs` (`src/lib.rs`).

The library bridges Rust to an embedded Python runtime running the
faster-whisper inference script.  We shallowly embed the host-side code:
the foreign runtime (script loading, attribute lookup, the `new_model` and
`transcribe_audio` entry points, and tuple extraction) is modelled as an
explicit record of deterministic effect functions `PyRuntime`, passed to
every embedded operation.  A Rust function that can panic as well as
return `Result` is embedded with the three-valued `Outcome` type.

Rust `f32` values are only carried through this code (decoded from Python
and stored in `Segment` fields); no arithmetic is ever performed on them,
so they are embedded with the carrier `F32 := Rat`, which has decidable
equality.
-/

/-- Carrier for Rust `f32` values.  The code never computes with floats,
it only moves them, so any carrier with decidable equality is faithful. -/
abbrev F32 := Rat

/-- Modelled from the spec: the nested VAD sub-configuration of
`WhisperConfig`, defined in the missing `src/config.rs` (spec section 3:
`{active: boolean, threshold: real, min speech duration: integer,
max speech duration: optional integer, min silence duration: integer,
padding duration: integer}`). -/
structure VadConfig where
  active : Bool
  threshold : F32
  min_speech_duration : Int
  max_speech_duration : Option Int
  min_silence_duration : Int
  padding_duration : Int
deriving DecidableEq

/-- Modelled from the spec: the transcription configuration struct defined
in the missing `src/config.rs` (spec section 3).  The field `prefix_val`
embeds the source field `prefix`, which is a reserved word in Lean. -/
structure WhisperConfig where
  starting_prompt : Option String
  prefix_val : Option String
  language : Option String
  beam_size : Int
  best_of : Int
  patience : F32
  length_penalty : F32
  chunk_length : Option Int
  vad : VadConfig
deriving DecidableEq

/-- Modelled from the spec: `WhisperConfig::default()` from the missing
`src/config.rs`.  Spec section 8 pins `beam_size = 5` and all optional
fields absent; the remaining numeric fields are not pinned by the spec and
are given fixed representative values here. -/
def WhisperConfig.default : WhisperConfig :=
  { starting_prompt := none
    prefix_val := none
    language := none
    beam_size := 5
    best_of := 5
    patience := 1
    length_penalty := 1
    chunk_length := none
    vad :=
      { active := true
        threshold := 1/2
        min_speech_duration := 250
        max_speech_duration := none
        min_silence_duration := 2000
        padding_duration := 400 } }

/-- One transcribed utterance span (`struct Segment`, lib.rs lines 18-29).
The field `end_` embeds the source field `end`, a reserved word in Lean. -/
structure Segment where
  id : Int
  seek : Int
  start : F32
  end_ : F32
  text : String
  temperature : F32
  avg_logprob : F32
  compression_ratio : F32
  no_speech_prob : F32
deriving DecidableEq

/-- Aggregate result (`struct Segments(String, pub Vec<Segment>)`,
lib.rs line 32).  `text` embeds the positional field `.0` (the
concatenated transcript) and `segments` the positional field `.1`. -/
structure Segments where
  text : String
  segments : List Segment
deriving DecidableEq

/-- The `ToString` impl for `Segments` (lib.rs lines 43-47): returns a
clone of the concatenated-text field `.0`. -/
def Segments.to_string (s : Segments) : String :=
  s.text

/-- The `Debug` impl for `Segments` (lib.rs lines 49-53): writes the
concatenated-text field `.0` to the formatter. -/
def Segments.debug_fmt (s : Segments) : String :=
  s.text

/-- The ephemeral-variant transcriber (`struct WhisperTranscriber`,
lib.rs lines 36-41): plain owned data, no foreign references. -/
structure WhisperTranscriber where
  model : String
  device : String
  compute_type : String
  config : WhisperConfig
deriving DecidableEq

/-- The 9-field tuple shape extracted from the foreign call
(`Vec<(i32, i32, f32, f32, String, f32, f32, f32, f32)>`,
lib.rs lines 112 and 230). -/
abbrev Tup9 := Int × Int × F32 × F32 × String × F32 × F32 × F32 × F32

/-- The VAD argument tuple passed to the foreign call
(lib.rs lines 86-93 and 202-209): `max_speech_duration` is
sentinel-encoded to a string, all other components passed as-is. -/
structure VadArgs where
  active : Bool
  threshold : F32
  min_speech_duration : Int
  max_speech_duration : String
  min_silence_duration : Int
  padding_duration : Int
deriving DecidableEq

/-- The positional argument list passed to the foreign `transcribe_audio`
entry point, after sentinel encoding of the optional fields
(lib.rs lines 95-107 and 211-223).  The model handle is kept separate
(first tuple component in the source). -/
structure TranscribeArgs where
  path : String
  starting_prompt : String
  prefix_val : String
  language : String
  beam_size : Int
  best_of : Int
  patience : F32
  length_penalty : F32
  chunk_length : String
  vad : VadArgs
deriving DecidableEq

/-- Outcome of running a Rust computation that may return `Ok`, return
`Err`, or panic (`expect` / `unwrap`). -/
inductive Outcome (α : Type) where
  | ok : α → Outcome α
  | err : String → Outcome α
  | panicked : String → Outcome α
deriving DecidableEq

/-- True exactly when the outcome is a returned `Err`. -/
def Outcome.isErr {α : Type} : Outcome α → Bool
  | .err _ => true
  | _ => false

/-- True exactly when the outcome is a panic. -/
def Outcome.isPanicked {α : Type} : Outcome α → Bool
  | .panicked _ => true
  | _ => false

/-- True exactly when the outcome is a returned `Ok`. -/
def Outcome.isOk {α : Type} : Outcome α → Bool
  | .ok _ => true
  | _ => false

/-- Rust `Result::unwrap()` in a world where panics are outcomes: `Ok`
passes through, `Err` becomes a panic carrying the error description. -/
def Outcome.unwrap {α : Type} : Outcome α → Outcome α
  | .ok a => .ok a
  | .err e => .panicked e
  | .panicked e => .panicked e

/-- The foreign (Python) runtime, modelled as a record of deterministic
effect functions.  `Module`, `Model` and `Raw` are the types of loaded
script modules, constructed model handles, and raw un-extracted return
values.  Field correspondence with the source:
`from_code` is `PyModule::from_code` on the embedded script;
`getattr_new_model` and `getattr_transcribe` are attribute lookup of the
entry points named by the strings `new_model` and `transcribe_audio`;
`new_model` invokes the model-construction entry point;
`transcribe_fn` invokes the `transcribe_audio` inference entry point;
`extract_segments` is the typed `extract` of the returned tuple list.
Each `Except` error carries the foreign error description. -/
structure PyRuntime (Module Model Raw : Type) where
  from_code : Except String Module
  getattr_new_model : Module → Except String Unit
  getattr_transcribe : Module → Except String Unit
  new_model : Module → String → String → String → Except String Model
  transcribe_fn : Module → Model → TranscribeArgs → Except String Raw
  extract_segments : Raw → Except String (List Tup9)

/-- Decoding of one 9-field tuple into a `Segment`, positionally in source
order (the loop body at lib.rs lines 116-126 and 235-245). -/
def decodeSegment (t : Tup9) : Segment :=
  { id := t.1
    seek := t.2.1
    start := t.2.2.1
    end_ := t.2.2.2.1
    text := t.2.2.2.2.1
    temperature := t.2.2.2.2.2.1
    avg_logprob := t.2.2.2.2.2.2.1
    compression_ratio := t.2.2.2.2.2.2.2.1
    no_speech_prob := t.2.2.2.2.2.2.2.2 }

/-- The decoding loop over the extracted tuple list, pushing one decoded
segment per tuple in order (lib.rs lines 113-127 and 232-246; the loop
body is textually identical in both variants). -/
def decodeSegments : List Tup9 → List Segment
  | [] => []
  | t :: ts => decodeSegment t :: decodeSegments ts

/-- The text-concatenation loop (lib.rs lines 132-135 and 251-255):
starting from the empty string, `push_str` each segment's text in order,
with no separator. -/
def concatText (segs : List Segment) : String :=
  segs.foldl (fun acc s => acc ++ s.text) ""

/-- The sentinel encoder `WhisperTranscriber::convert` (lib.rs lines
140-145): an absent optional becomes the literal string `None`, a present
value is rendered with its `ToString` instance, passed here explicitly as
`render`. -/
def WhisperTranscriber.convert {T : Type} (render : T → String) :
    Option T → String
  | some x => render x
  | none => "None"

/-- The sentinel encoder `WhisperModel::convert` (lib.rs lines 193-198),
textually identical to `WhisperTranscriber::convert`. -/
def WhisperModel.convert {T : Type} (render : T → String) :
    Option T → String
  | some x => render x
  | none => "None"

/-- `WhisperTranscriber::new` (lib.rs lines 57-64): pure value
construction storing the four arguments unchanged; it touches no foreign
state, hence takes no `PyRuntime`. -/
def WhisperTranscriber.new (model device compute_type : String)
    (config : WhisperConfig) : WhisperTranscriber :=
  { model := model, device := device, compute_type := compute_type,
    config := config }

/-- `WhisperTranscriber::transcribe` (lib.rs lines 67-138), the ephemeral
variant: load the script fresh (`.expect` panics on failure), look up and
call `new_model` (both failures propagate with `?`), build the encoded
argument tuple, look up and call `transcribe_audio`, extract the tuple
list (all failures propagate with `?`), decode, concatenate. -/
def WhisperTranscriber.transcribe {Module Model Raw : Type}
    (rt : PyRuntime Module Model Raw) (t : WhisperTranscriber)
    (path : String) : Outcome Segments :=
  match rt.from_code with
  | .error e => .panicked ("should have activators: " ++ e)
  | .ok activators =>
    match rt.getattr_new_model activators with
    | .error e => .err e
    | .ok _ =>
      match rt.new_model activators t.model t.device t.compute_type with
      | .error e => .err e
      | .ok model =>
        let vad : VadArgs :=
          { active := t.config.vad.active
            threshold := t.config.vad.threshold
            min_speech_duration := t.config.vad.min_speech_duration
            max_speech_duration :=
              WhisperTranscriber.convert toString t.config.vad.max_speech_duration
            min_silence_duration := t.config.vad.min_silence_duration
            padding_duration := t.config.vad.padding_duration }
        let transcribe_args : TranscribeArgs :=
          { path := path
            starting_prompt :=
              WhisperTranscriber.convert id t.config.starting_prompt
            prefix_val := WhisperTranscriber.convert id t.config.prefix_val
            language := WhisperTranscriber.convert id t.config.language
            beam_size := t.config.beam_size
            best_of := t.config.best_of
            patience := t.config.patience
            length_penalty := t.config.length_penalty
            chunk_length :=
              WhisperTranscriber.convert toString t.config.chunk_length
            vad := vad }
        match rt.getattr_transcribe activators with
        | .error e => .err e
        | .ok _ =>
          match rt.transcribe_fn activators model transcribe_args with
          | .error e => .err e
          | .ok raw =>
            match rt.extract_segments raw with
            | .error e => .err e
            | .ok pysegments =>
              let segments := decodeSegments pysegments
              .ok { text := concatText segments, segments := segments }

/-- The persistent-variant handle (`struct WhisperModel`, lib.rs lines
11-16): owns the loaded script module, the constructed model handle, and
the configuration. -/
structure WhisperModel (Module Model : Type) where
  module : Module
  model : Model
  config : WhisperConfig

/-- `WhisperModel::new` (lib.rs lines 160-191): loads the script
(`.expect` panics on failure), looks up `new_model` (`.unwrap()` panics on
failure), calls it (`.unwrap()` panics on failure), and stores module,
model handle and configuration.  Note every foreign failure panics; the
`Err` branch of the declared `Result` return type is never produced. -/
def WhisperModel.new {Module Model Raw : Type}
    (rt : PyRuntime Module Model Raw) (model device compute_type : String)
    (config : WhisperConfig) : Outcome (WhisperModel Module Model) :=
  match rt.from_code with
  | .error e => .panicked ("should have activators: " ++ e)
  | .ok activators =>
    match rt.getattr_new_model activators with
    | .error e => .panicked e
    | .ok _ =>
      match rt.new_model activators model device compute_type with
      | .error e => .panicked e
      | .ok m =>
        .ok { module := activators, model := m, config := config }

/-- `impl Default for WhisperModel` (lib.rs lines 148-158): calls the
fallible constructor with model `base.en`, device `cpu`, precision `int8`
and the default configuration, then `.unwrap()`s the result. -/
def WhisperModel.default {Module Model Raw : Type}
    (rt : PyRuntime Module Model Raw) : Outcome (WhisperModel Module Model) :=
  (WhisperModel.new rt "base.en" "cpu" "int8" WhisperConfig.default).unwrap

/-- `WhisperModel::transcribe` (lib.rs lines 200-258), the persistent
variant: build the encoded argument tuple, look up `transcribe_audio` on
the stored module (`.unwrap()` panics on failure), call it with the stored
model handle (`?` propagates an error), extract (`?`), decode,
concatenate. -/
def WhisperModel.transcribe {Module Model Raw : Type}
    (rt : PyRuntime Module Model Raw) (wm : WhisperModel Module Model)
    (path : String) : Outcome Segments :=
  let vad : VadArgs :=
    { active := wm.config.vad.active
      threshold := wm.config.vad.threshold
      min_speech_duration := wm.config.vad.min_speech_duration
      max_speech_duration :=
        WhisperModel.convert toString wm.config.vad.max_speech_duration
      min_silence_duration := wm.config.vad.min_silence_duration
      padding_duration := wm.config.vad.padding_duration }
  let args : TranscribeArgs :=
    { path := path
      starting_prompt := WhisperModel.convert id wm.config.starting_prompt
      prefix_val := WhisperModel.convert id wm.config.prefix_val
      language := WhisperModel.convert id wm.config.language
      beam_size := wm.config.beam_size
      best_of := wm.config.best_of
      patience := wm.config.patience
      length_penalty := wm.config.length_penalty
      chunk_length := WhisperModel.convert toString wm.config.chunk_length
      vad := vad }
  match rt.getattr_transcribe wm.module with
  | .error e => .panicked e
  | .ok _ =>
    match rt.transcribe_fn wm.module wm.model args with
    | .error e => .err e
    | .ok raw =>
      match rt.extract_segments raw with
      | .error e => .err e
      | .ok pysegments =>
        let segments := decodeSegments pysegments
        .ok { text := concatText segments, segments := segments }

/-! Helper lemmas and concrete runtimes used by witnesses. -/

/-- The two sentinel encoders are textually identical in the source and
are extensionally equal. -/
theorem convert_eq {T : Type} (render : T → String) (v : Option T) :
    WhisperTranscriber.convert render v = WhisperModel.convert render v := by
  cases v <;> rfl

/-- Decoding preserves the length of the tuple list. -/
theorem decodeSegments_length (ts : List Tup9) :
    (decodeSegments ts).length = ts.length := by
  induction ts with
  | nil => rfl
  | cons t ts ih => simp [decodeSegments, ih]

/-- Decoding is positional: the i-th decoded segment is the decoding of
the i-th tuple. -/
theorem decodeSegments_get (ts : List Tup9) (i : Nat)
    (h : i < ts.length) (h2 : i < (decodeSegments ts).length) :
    (decodeSegments ts).get ⟨i, h2⟩ = decodeSegment (ts.get ⟨i, h⟩) := by
  induction ts generalizing i with
  | nil => exact absurd h (Nat.not_lt_zero i)
  | cons t ts ih =>
    cases i with
    | zero => rfl
    | succ n =>
      exact ih n (Nat.lt_of_succ_lt_succ h)
        (by simpa [decodeSegments] using h2)

/-- The text-concatenation loop computes the separator-free join of the
segment texts. -/
theorem concatText_eq_join (segs : List Segment) :
    concatText segs = String.join (segs.map Segment.text) := by
  simp [concatText, String.join, List.foldl_map]

/-- Inversion for the ephemeral variant: a successful transcription's
text field is the concatenation of its segment texts. -/
theorem transcriber_ok_text {Module Model Raw : Type}
    (rt : PyRuntime Module Model Raw) (t : WhisperTranscriber)
    (path : String) (s : Segments)
    (h : WhisperTranscriber.transcribe rt t path = .ok s) :
    s.text = concatText s.segments := by
  unfold WhisperTranscriber.transcribe at h
  dsimp only at h
  repeat' split at h
  all_goals simp_all
  all_goals (subst h; rfl)

/-- Inversion for the persistent variant: a successful transcription's
text field is the concatenation of its segment texts. -/
theorem model_ok_text {Module Model Raw : Type}
    (rt : PyRuntime Module Model Raw) (wm : WhisperModel Module Model)
    (path : String) (s : Segments)
    (h : WhisperModel.transcribe rt wm path = .ok s) :
    s.text = concatText s.segments := by
  unfold WhisperModel.transcribe at h
  dsimp only at h
  repeat' split at h
  all_goals simp_all
  all_goals (subst h; rfl)

/-- Two sample tuples with pairwise distinct components, used by
witnesses. -/
def sampleTuples : List Tup9 :=
  [(1, 2, 3, 4, "hello ", 5, 6, 7, 8),
   (9, 10, 11, 12, "world", 13, 14, 15, 16)]

/-- The segments decoded from `sampleTuples`. -/
def sampleSegments : List Segment :=
  [{ id := 1, seek := 2, start := 3, end_ := 4, text := "hello ",
     temperature := 5, avg_logprob := 6, compression_ratio := 7,
     no_speech_prob := 8 },
   { id := 9, seek := 10, start := 11, end_ := 12, text := "world",
     temperature := 13, avg_logprob := 14, compression_ratio := 15,
     no_speech_prob := 16 }]

/-- A runtime on which every foreign operation succeeds and extraction
yields `sampleTuples`. -/
def rtGood : PyRuntime Unit Unit Unit :=
  { from_code := .ok ()
    getattr_new_model := fun _ => .ok ()
    getattr_transcribe := fun _ => .ok ()
    new_model := fun _ _ _ _ => .ok ()
    transcribe_fn := fun _ _ _ => .ok ()
    extract_segments := fun _ => .ok sampleTuples }

/-- A runtime on which every foreign operation succeeds and extraction
yields the empty tuple list. -/
def rtEmpty : PyRuntime Unit Unit Unit :=
  { rtGood with extract_segments := fun _ => .ok [] }

/-- A runtime whose script loading fails. -/
def rtLoadFail : PyRuntime Unit Unit Unit :=
  { rtGood with from_code := .error "load failed" }

/-- A runtime whose module lacks the `new_model` entry point. -/
def rtNoNewModelAttr : PyRuntime Unit Unit Unit :=
  { rtGood with getattr_new_model := fun _ => .error "no new_model" }

/-- A runtime whose `new_model` entry point raises. -/
def rtCtorFail : PyRuntime Unit Unit Unit :=
  { rtGood with new_model := fun _ _ _ _ => .error "unknown model" }

/-- A runtime whose module lacks the `transcribe_audio` entry point. -/
def rtNoTransAttr : PyRuntime Unit Unit Unit :=
  { rtGood with getattr_transcribe := fun _ => .error "no transcribe_audio" }

/-- A runtime whose `transcribe_audio` entry point raises. -/
def rtTransRaise : PyRuntime Unit Unit Unit :=
  { rtGood with transcribe_fn := fun _ _ _ => .error "inference raised" }

/-- A runtime whose returned value fails typed extraction (for example a
tuple of the wrong arity). -/
def rtExtractFail : PyRuntime Unit Unit Unit :=
  { rtGood with extract_segments := fun _ => .error "wrong arity" }

/-- A concrete ephemeral transcriber used by witnesses. -/
def tr0 : WhisperTranscriber :=
  WhisperTranscriber.new "base.en" "cpu" "int8" WhisperConfig.default

/-- A concrete persistent handle used by witnesses. -/
def wm0 : WhisperModel Unit Unit :=
  { module := (), model := (), config := WhisperConfig.default }

/-! Claim theorems. -/

/-- C1: given the same foreign-runtime behaviour, a persistent handle
successfully constructed from (model, device, precision, configuration)
and an ephemeral transcriber built from the same inputs return exactly the
same successful `AggregateResult` values on the same audio path: each
aggregate result the persistent variant returns is the one the ephemeral
variant returns, and conversely. -/
theorem c1_variant_equivalence {Module Model Raw : Type}
    (rt : PyRuntime Module Model Raw) (m d c : String) (cfg : WhisperConfig)
    (wm : WhisperModel Module Model)
    (h : WhisperModel.new rt m d c cfg = .ok wm) (path : String)
    (s : Segments) :
    WhisperModel.transcribe rt wm path = .ok s ↔
      WhisperTranscriber.transcribe rt (WhisperTranscriber.new m d c cfg)
        path = .ok s := by
  unfold WhisperModel.new at h
  cases hfc : rt.from_code with
  | error e => simp [hfc] at h
  | ok md =>
    simp only [hfc] at h
    cases hga : rt.getattr_new_model md with
    | error e => simp [hga] at h
    | ok u =>
      simp only [hga] at h
      cases hnm : rt.new_model md m d c with
      | error e => simp [hnm] at h
      | ok mdl =>
        simp only [hnm] at h
        injection h with h2
        subst h2
        simp only [WhisperModel.transcribe, WhisperTranscriber.transcribe,
          WhisperTranscriber.new, hfc, hga, hnm, convert_eq]
        cases hgt : rt.getattr_transcribe md with
        | error e => simp [hgt]
        | ok u2 => simp [hgt]

/-- Witness for C1 at a concrete runtime on which every foreign operation
succeeds and extraction yields `sampleTuples`. -/
theorem c1_variant_equivalence_witness :
    (WhisperModel.transcribe rtGood
        { module := (), model := (), config := WhisperConfig.default } "p" =
      Outcome.ok { text := "hello world", segments := sampleSegments }) ↔
    (WhisperTranscriber.transcribe rtGood
        (WhisperTranscriber.new "base.en" "cpu" "int8" WhisperConfig.default)
        "p" =
      Outcome.ok { text := "hello world", segments := sampleSegments }) :=
  c1_variant_equivalence rtGood "base.en" "cpu" "int8" WhisperConfig.default
    { module := (), model := (), config := WhisperConfig.default } rfl "p"
    { text := "hello world", segments := sampleSegments }

/-- C2: when the foreign pipeline yields the tuple list `ts`, both
variants return exactly the decoded segment list: same length as `ts`,
same order, and the i-th segment's fields equal the i-th tuple's
components mapped positionally in the order (id, seek, start, end, text,
temperature, avg_logprob, compression ratio, no_speech_prob). -/
theorem c2_positional_decoding {Module Model Raw : Type}
    (rt : PyRuntime Module Model Raw) (md : Module) (mdl : Model) (raw : Raw)
    (ts : List Tup9)
    (hfc : rt.from_code = .ok md)
    (hga : ∀ mo, rt.getattr_new_model mo = .ok ())
    (hnm : ∀ mo a b c, rt.new_model mo a b c = .ok mdl)
    (hgt : ∀ mo, rt.getattr_transcribe mo = .ok ())
    (hca : ∀ mo m a, rt.transcribe_fn mo m a = .ok raw)
    (hex : ∀ r, rt.extract_segments r = .ok ts) :
    (∀ t path, WhisperTranscriber.transcribe rt t path =
      .ok { text := concatText (decodeSegments ts),
            segments := decodeSegments ts }) ∧
    (∀ wm path, WhisperModel.transcribe rt wm path =
      .ok { text := concatText (decodeSegments ts),
            segments := decodeSegments ts }) ∧
    (decodeSegments ts).length = ts.length ∧
    (∀ i (h : i < ts.length) (h2 : i < (decodeSegments ts).length),
      ((decodeSegments ts).get ⟨i, h2⟩).id = (ts.get ⟨i, h⟩).1 ∧
      ((decodeSegments ts).get ⟨i, h2⟩).seek = (ts.get ⟨i, h⟩).2.1 ∧
      ((decodeSegments ts).get ⟨i, h2⟩).start = (ts.get ⟨i, h⟩).2.2.1 ∧
      ((decodeSegments ts).get ⟨i, h2⟩).end_ = (ts.get ⟨i, h⟩).2.2.2.1 ∧
      ((decodeSegments ts).get ⟨i, h2⟩).text = (ts.get ⟨i, h⟩).2.2.2.2.1 ∧
      ((decodeSegments ts).get ⟨i, h2⟩).temperature =
        (ts.get ⟨i, h⟩).2.2.2.2.2.1 ∧
      ((decodeSegments ts).get ⟨i, h2⟩).avg_logprob =
        (ts.get ⟨i, h⟩).2.2.2.2.2.2.1 ∧
      Segment.compression_ratio ((decodeSegments ts).get ⟨i, h2⟩) =
        (ts.get ⟨i, h⟩).2.2.2.2.2.2.2.1 ∧
      ((decodeSegments ts).get ⟨i, h2⟩).no_speech_prob =
        (ts.get ⟨i, h⟩).2.2.2.2.2.2.2.2) := by
  refine ⟨?_, ?_, decodeSegments_length ts, ?_⟩
  · intro t path
    simp [WhisperTranscriber.transcribe, hfc, hga, hnm, hgt, hca, hex]
  · intro wm path
    simp [WhisperModel.transcribe, hgt, hca, hex]
  · intro i h h2
    rw [decodeSegments_get ts i h h2]
    exact ⟨rfl, rfl, rfl, rfl, rfl, rfl, rfl, rfl, rfl⟩

/-- Witness for C2 at the concrete runtime `rtGood`, whose extraction
yields the two-element `sampleTuples`. -/
theorem c2_positional_decoding_witness :
    WhisperTranscriber.transcribe rtGood tr0 "p" =
      .ok { text := concatText (decodeSegments sampleTuples),
            segments := decodeSegments sampleTuples } ∧
    WhisperModel.transcribe rtGood wm0 "p" =
      .ok { text := concatText (decodeSegments sampleTuples),
            segments := decodeSegments sampleTuples } ∧
    (decodeSegments sampleTuples).length = sampleTuples.length ∧
    decodeSegments sampleTuples = sampleSegments ∧
    concatText sampleSegments = "hello world" :=
  have h := c2_positional_decoding rtGood () () () sampleTuples rfl
    (fun _ => rfl) (fun _ _ _ _ => rfl) (fun _ => rfl) (fun _ _ _ => rfl)
    (fun _ => rfl)
  ⟨h.1 tr0 "p", h.2.1 wm0 "p", h.2.2.1, by decide, by decide⟩

/-- C3: every successful aggregate result of either variant has its text
field equal to the ordered, separator-free concatenation of the segment
texts (so in particular the empty segment list gives the empty string). -/
theorem c3_text_concat_invariant {Module Model Raw : Type}
    (rt : PyRuntime Module Model Raw) (t : WhisperTranscriber)
    (wm : WhisperModel Module Model) (path1 path2 : String)
    (s1 s2 : Segments) :
    (WhisperTranscriber.transcribe rt t path1 = .ok s1 →
      s1.text = String.join (s1.segments.map Segment.text)) ∧
    (WhisperModel.transcribe rt wm path2 = .ok s2 →
      s2.text = String.join (s2.segments.map Segment.text)) := by
  constructor
  · intro h
    rw [transcriber_ok_text rt t path1 s1 h, concatText_eq_join]
  · intro h
    rw [model_ok_text rt wm path2 s2 h, concatText_eq_join]

/-- Witness for C3: the empty-extraction runtime `rtEmpty` produces the
aggregate result with empty text and empty segment list in both variants,
and its text is the join of its (zero) segment texts. -/
theorem c3_text_concat_invariant_witness :
    (Segments.mk "" []).text =
      String.join (List.map Segment.text (Segments.mk "" []).segments) ∧
    (Segments.mk "" []).text = "" :=
  ⟨(c3_text_concat_invariant rtEmpty tr0 wm0 "p" "p"
      (Segments.mk "" []) (Segments.mk "" [])).1 rfl, rfl⟩

/-- C4 counterexample: the present value `Some "None")` renders to exactly
the sentinel string `None`, so a present value's encoding is not always
distinct from the sentinel. -/
theorem c4_counterexample :
    WhisperTranscriber.convert id (some "None") = "None" ∧
    WhisperModel.convert id (some "None") = "None" :=
  ⟨rfl, rfl⟩

/-- C4 amended: the sentinel encoder of either variant maps an absent
value to exactly the string `None` and a present value to its plain
textual rendering; that rendering may itself coincide with the sentinel
string (for example for `Some "None")`. -/
theorem c4_sentinel_encoder {T : Type} (render : T → String) (x : T) :
    WhisperTranscriber.convert render none = "None" ∧
    WhisperTranscriber.convert render (some x) = render x ∧
    WhisperModel.convert render none = "None" ∧
    WhisperModel.convert render (some x) = render x :=
  ⟨rfl, rfl, rfl, rfl⟩

/-- C5 counterexample: on a runtime whose stored module lacks the
`transcribe_audio` entry point, the persistent variant's `transcribe`
panics (the source calls `.unwrap()` on the attribute lookup) instead of
returning an error. -/
theorem c5_counterexample :
    (WhisperModel.transcribe rtNoTransAttr wm0 "p").isErr = false ∧
    (WhisperModel.transcribe rtNoTransAttr wm0 "p").isPanicked = true := by
  constructor <;> rfl

/-- C5 amended: in the ephemeral variant a script-load failure panics,
while a missing entry point, a raised foreign exception, or an extraction
failure each surface as a returned error carrying the foreign
description; in the persistent variant a raised foreign exception or an
extraction failure surfaces as a returned error, but a missing
`transcribe_audio` entry point panics. -/
theorem c5_error_surfacing {Module Model Raw : Type}
    (rt : PyRuntime Module Model Raw) (t : WhisperTranscriber)
    (wm : WhisperModel Module Model) (path : String) :
    (∀ e, rt.from_code = .error e →
      WhisperTranscriber.transcribe rt t path =
        .panicked ("should have activators: " ++ e)) ∧
    (∀ md e, rt.from_code = .ok md → rt.getattr_new_model md = .error e →
      WhisperTranscriber.transcribe rt t path = .err e) ∧
    (∀ md e, rt.from_code = .ok md → rt.getattr_new_model md = .ok () →
      rt.new_model md t.model t.device t.compute_type = .error e →
      WhisperTranscriber.transcribe rt t path = .err e) ∧
    (∀ md mdl e, rt.from_code = .ok md → rt.getattr_new_model md = .ok () →
      rt.new_model md t.model t.device t.compute_type = .ok mdl →
      rt.getattr_transcribe md = .error e →
      WhisperTranscriber.transcribe rt t path = .err e) ∧
    (∀ md mdl e, rt.from_code = .ok md → rt.getattr_new_model md = .ok () →
      rt.new_model md t.model t.device t.compute_type = .ok mdl →
      rt.getattr_transcribe md = .ok () →
      (∀ mo a, rt.transcribe_fn md mo a = .error e) →
      WhisperTranscriber.transcribe rt t path = .err e) ∧
    (∀ md mdl raw e, rt.from_code = .ok md →
      rt.getattr_new_model md = .ok () →
      rt.new_model md t.model t.device t.compute_type = .ok mdl →
      rt.getattr_transcribe md = .ok () →
      (∀ mo a, rt.transcribe_fn md mo a = .ok raw) →
      rt.extract_segments raw = .error e →
      WhisperTranscriber.transcribe rt t path = .err e) ∧
    (∀ e, rt.getattr_transcribe wm.module = .error e →
      WhisperModel.transcribe rt wm path = .panicked e) ∧
    (∀ e, rt.getattr_transcribe wm.module = .ok () →
      (∀ a, rt.transcribe_fn wm.module wm.model a = .error e) →
      WhisperModel.transcribe rt wm path = .err e) ∧
    (∀ raw e, rt.getattr_transcribe wm.module = .ok () →
      (∀ a, rt.transcribe_fn wm.module wm.model a = .ok raw) →
      rt.extract_segments raw = .error e →
      WhisperModel.transcribe rt wm path = .err e) := by
  refine ⟨?_, ?_, ?_, ?_, ?_, ?_, ?_, ?_, ?_⟩
  · intro e h1
    simp [WhisperTranscriber.transcribe, h1]
  · intro md e h1 h2
    simp [WhisperTranscriber.transcribe, h1, h2]
  · intro md e h1 h2 h3
    simp [WhisperTranscriber.transcribe, h1, h2, h3]
  · intro md mdl e h1 h2 h3 h4
    simp [WhisperTranscriber.transcribe, h1, h2, h3, h4]
  · intro md mdl e h1 h2 h3 h4 h5
    simp [WhisperTranscriber.transcribe, h1, h2, h3, h4, h5]
  · intro md mdl raw e h1 h2 h3 h4 h5 h6
    simp [WhisperTranscriber.transcribe, h1, h2, h3, h4, h5, h6]
  · intro e h1
    simp [WhisperModel.transcribe, h1]
  · intro e h1 h2
    simp [WhisperModel.transcribe, h1, h2]
  · intro raw e h1 h2 h3
    simp [WhisperModel.transcribe, h1, h2, h3]

/-- Witness for C5 amended, instantiating every failure mode at a
concrete runtime. -/
theorem c5_error_surfacing_witness :
    WhisperTranscriber.transcribe rtLoadFail tr0 "p" =
      .panicked ("should have activators: " ++ "load failed") ∧
    WhisperTranscriber.transcribe rtNoNewModelAttr tr0 "p" =
      .err "no new_model" ∧
    WhisperTranscriber.transcribe rtCtorFail tr0 "p" =
      .err "unknown model" ∧
    WhisperTranscriber.transcribe rtNoTransAttr tr0 "p" =
      .err "no transcribe_audio" ∧
    WhisperTranscriber.transcribe rtTransRaise tr0 "p" =
      .err "inference raised" ∧
    WhisperTranscriber.transcribe rtExtractFail tr0 "p" =
      .err "wrong arity" ∧
    WhisperModel.transcribe rtNoTransAttr wm0 "p" =
      .panicked "no transcribe_audio" ∧
    WhisperModel.transcribe rtTransRaise wm0 "p" =
      .err "inference raised" ∧
    WhisperModel.transcribe rtExtractFail wm0 "p" =
      .err "wrong arity" :=
  ⟨(c5_error_surfacing rtLoadFail tr0 wm0 "p").1 "load failed" rfl,
   (c5_error_surfacing rtNoNewModelAttr tr0 wm0 "p").2.1 ()
     "no new_model" rfl rfl,
   (c5_error_surfacing rtCtorFail tr0 wm0 "p").2.2.1 ()
     "unknown model" rfl rfl rfl,
   (c5_error_surfacing rtNoTransAttr tr0 wm0 "p").2.2.2.1 () ()
     "no transcribe_audio" rfl rfl rfl rfl,
   (c5_error_surfacing rtTransRaise tr0 wm0 "p").2.2.2.2.1 () ()
     "inference raised" rfl rfl rfl rfl (fun _ _ => rfl),
   (c5_error_surfacing rtExtractFail tr0 wm0 "p").2.2.2.2.2.1 () () ()
     "wrong arity" rfl rfl rfl rfl (fun _ _ => rfl) rfl,
   (c5_error_surfacing rtNoTransAttr tr0 wm0 "p").2.2.2.2.2.2.1
     "no transcribe_audio" rfl,
   (c5_error_surfacing rtTransRaise tr0 wm0 "p").2.2.2.2.2.2.2.1
     "inference raised" rfl (fun _ => rfl),
   (c5_error_surfacing rtExtractFail tr0 wm0 "p").2.2.2.2.2.2.2.2 ()
     "wrong arity" rfl (fun _ => rfl) rfl⟩

/-- C6 counterexample: on a runtime whose `new_model` entry point raises,
`WhisperModel::new` panics (the source `.unwrap()`s the call) instead of
returning the claimed `Err` value. -/
theorem c6_counterexample :
    (WhisperModel.new rtCtorFail "m" "d" "c" WhisperConfig.default).isErr
      = false ∧
    (WhisperModel.new rtCtorFail "m" "d" "c"
        WhisperConfig.default).isPanicked = true := by
  constructor <;> rfl

/-- C6 amended: `WhisperModel::new` never returns an `Err` value; when
script loading, entry-point lookup and the `new_model` call all succeed it
returns `Ok` with the loaded module, the constructed model handle and the
given configuration stored, and when any of the three fails it panics. -/
theorem c6_constructor_never_errs {Module Model Raw : Type}
    (rt : PyRuntime Module Model Raw) (m d c : String)
    (cfg : WhisperConfig) :
    (WhisperModel.new rt m d c cfg).isErr = false ∧
    (∀ md mdl, rt.from_code = .ok md → rt.getattr_new_model md = .ok () →
      rt.new_model md m d c = .ok mdl →
      WhisperModel.new rt m d c cfg =
        .ok { module := md, model := mdl, config := cfg }) ∧
    (∀ e, rt.from_code = .error e →
      (WhisperModel.new rt m d c cfg).isPanicked = true) ∧
    (∀ md e, rt.from_code = .ok md → rt.getattr_new_model md = .error e →
      (WhisperModel.new rt m d c cfg).isPanicked = true) ∧
    (∀ md e, rt.from_code = .ok md → rt.getattr_new_model md = .ok () →
      rt.new_model md m d c = .error e →
      (WhisperModel.new rt m d c cfg).isPanicked = true) := by
  refine ⟨?_, ?_, ?_, ?_, ?_⟩
  · unfold WhisperModel.new
    repeat' split
    all_goals rfl
  · intro md mdl h1 h2 h3
    simp [WhisperModel.new, h1, h2, h3]
  · intro e h1
    simp [WhisperModel.new, h1, Outcome.isPanicked]
  · intro md e h1 h2
    simp [WhisperModel.new, h1, h2, Outcome.isPanicked]
  · intro md e h1 h2 h3
    simp [WhisperModel.new, h1, h2, h3, Outcome.isPanicked]

/-- Witness for C6 amended at concrete runtimes covering the success case
and all three panic cases. -/
theorem c6_constructor_never_errs_witness :
    (WhisperModel.new rtGood "base.en" "cpu" "int8"
        WhisperConfig.default).isErr = false ∧
    WhisperModel.new rtGood "base.en" "cpu" "int8" WhisperConfig.default =
      .ok { module := (), model := (), config := WhisperConfig.default } ∧
    (WhisperModel.new rtLoadFail "m" "d" "c"
        WhisperConfig.default).isPanicked = true ∧
    (WhisperModel.new rtNoNewModelAttr "m" "d" "c"
        WhisperConfig.default).isPanicked = true ∧
    (WhisperModel.new rtCtorFail "m" "d" "c"
        WhisperConfig.default).isPanicked = true :=
  ⟨(c6_constructor_never_errs rtGood "base.en" "cpu" "int8"
      WhisperConfig.default).1,
   (c6_constructor_never_errs rtGood "base.en" "cpu" "int8"
      WhisperConfig.default).2.1 () () rfl rfl rfl,
   (c6_constructor_never_errs rtLoadFail "m" "d" "c"
      WhisperConfig.default).2.2.1 "load failed" rfl,
   (c6_constructor_never_errs rtNoNewModelAttr "m" "d" "c"
      WhisperConfig.default).2.2.2.1 () "no new_model" rfl rfl,
   (c6_constructor_never_errs rtCtorFail "m" "d" "c"
      WhisperConfig.default).2.2.2.2 () "unknown model" rfl rfl rfl⟩

/-- C7: the convenience `Default` constructor builds the persistent
transcriber through the fallible constructor with model `base.en`, device
`cpu`, precision `int8` and the default configuration, storing exactly
those foreign handles on success, and panics on any foreign-construction
failure. -/
theorem c7_default_constructor {Module Model Raw : Type}
    (rt : PyRuntime Module Model Raw) :
    (∀ md mdl, rt.from_code = .ok md → rt.getattr_new_model md = .ok () →
      rt.new_model md "base.en" "cpu" "int8" = .ok mdl →
      WhisperModel.default rt =
        .ok { module := md, model := mdl, config := WhisperConfig.default }) ∧
    (∀ e, rt.from_code = .error e →
      (WhisperModel.default rt).isPanicked = true) ∧
    (∀ md e, rt.from_code = .ok md → rt.getattr_new_model md = .error e →
      (WhisperModel.default rt).isPanicked = true) ∧
    (∀ md e, rt.from_code = .ok md → rt.getattr_new_model md = .ok () →
      rt.new_model md "base.en" "cpu" "int8" = .error e →
      (WhisperModel.default rt).isPanicked = true) := by
  refine ⟨?_, ?_, ?_, ?_⟩
  · intro md mdl h1 h2 h3
    simp [WhisperModel.default, WhisperModel.new, h1, h2, h3,
      Outcome.unwrap]
  · intro e h1
    simp [WhisperModel.default, WhisperModel.new, h1, Outcome.unwrap,
      Outcome.isPanicked]
  · intro md e h1 h2
    simp [WhisperModel.default, WhisperModel.new, h1, h2, Outcome.unwrap,
      Outcome.isPanicked]
  · intro md e h1 h2 h3
    simp [WhisperModel.default, WhisperModel.new, h1, h2, h3,
      Outcome.unwrap, Outcome.isPanicked]

/-- Witness for C7 at concrete runtimes covering the success case and a
construction-failure case. -/
theorem c7_default_constructor_witness :
    WhisperModel.default rtGood =
      .ok { module := (), model := (), config := WhisperConfig.default } ∧
    (WhisperModel.default rtCtorFail).isPanicked = true ∧
    (WhisperModel.default rtLoadFail).isPanicked = true :=
  ⟨(c7_default_constructor rtGood).1 () () rfl rfl rfl,
   (c7_default_constructor rtCtorFail).2.2.2 () "unknown model" rfl rfl rfl,
   (c7_default_constructor rtLoadFail).2.1 "load failed" rfl⟩

/-- C8: `WhisperTranscriber::new` is pure value construction: it takes no
foreign runtime, always succeeds, and the constructed transcriber stores
exactly the given model name, device, compute precision and configuration
unchanged. -/
theorem c8_pure_construction (model device compute_type : String)
    (config : WhisperConfig) :
    (WhisperTranscriber.new model device compute_type config).model =
      model ∧
    (WhisperTranscriber.new model device compute_type config).device =
      device ∧
    (WhisperTranscriber.new model device compute_type
      config).compute_type = compute_type ∧
    (WhisperTranscriber.new model device compute_type config).config =
      config :=
  ⟨rfl, rfl, rfl, rfl⟩

/-- C9: the string conversion of an aggregate result, and likewise its
Debug rendering, is exactly the concatenated transcript text field and
not a rendering of the segment list. -/
theorem c9_string_conversion (s : Segments) :
    Segments.to_string s = s.text ∧ Segments.debug_fmt s = s.text :=
  ⟨rfl, rfl⟩
